import Mathlib

/-!
Verification of the club-image-processor pipeline.

This file embeds the core logic of the repository as executable Lean
definitions and proves properties about them:

* `scanCSV` / `parseRows` — the character-level CSV row scanner of
  `parseCSV` (server.js lines 44-97).
* `cleanClubName`, `isValidUrl`, `rowToClub`, `extractClubs`, `parseCSV`
  — the record extractor that turns parsed rows into `Club` submissions.
* `processImageToCloudinary`, `processClub`, `processClubs` — the
  per-submission orchestration loop of the `/api/process-images` handler,
  with all network effects (download, resize, upload) abstracted into an
  oracle so that the control flow and the error bookkeeping are exact.
* `searchPhase`, `searchOutcome`, `buildUpdateFields`,
  `updateAirtableRecordM`, `airtableStep` — the Airtable reconciliation
  (`updateAirtableRecord` and its caller), again with HTTP responses
  supplied by oracles.

Platform functions used by the source (the regexes of `cleanClubName`,
`String.prototype.trim`, `new URL`) are modelled character by character;
each model carries a doc comment saying exactly what it models.
-/

/-! ## Character classes and string helpers -/

/-- The whitespace class used by the JavaScript source: the characters
matched by the regex class when the code runs `.replace(/\s+/g, ...)` and
by `String.prototype.trim`.  We list the ASCII whitespace characters plus
NBSP; the pipeline only ever meets these. -/
def isJsSpace (c : Char) : Bool :=
  c == ' ' || c == '\t' || c == '\n' || c == '\r' || c == '\x0b' ||
    c == '\x0c' || c == '\xa0'

/-- The regex class `\w` of the source (`[A-Za-z0-9_]`), written with the
ASCII codes so that proofs can reason about ranges. -/
def wordChar (c : Char) : Bool :=
  (65 ≤ c.toNat && c.toNat ≤ 90) || (97 ≤ c.toNat && c.toNat ≤ 122) ||
    (48 ≤ c.toNat && c.toNat ≤ 57) || c == '_'

/-- ASCII lower-casing of one character, the effect of the source calling
`String.prototype.toLowerCase` on strings that only contain ASCII word
characters and hyphens (which is the case at its call site, after the two
regex replacements of `cleanClubName`). -/
def toLowerChar (c : Char) : Char :=
  if 65 ≤ c.toNat ∧ c.toNat ≤ 90 then Char.ofNat (c.toNat + 32) else c

/-- ASCII upper-casing of one character, used by `generateAltText` through
`.replace(/\b\w/g, l => l.toUpperCase())`. -/
def toUpperChar (c : Char) : Char :=
  if 97 ≤ c.toNat ∧ c.toNat ≤ 122 then Char.ofNat (c.toNat - 32) else c

/-- The character list behind `String.prototype.trim`: leading and trailing
whitespace removed. -/
def trimChars (l : List Char) : List Char :=
  ((l.dropWhile isJsSpace).reverse.dropWhile isJsSpace).reverse

/-- `String.prototype.trim` as used throughout the source
(`field.trim()`, `url.trim()`, `submissionId.trim()`, ...). -/
def jsTrim (s : String) : String := String.mk (trimChars s.data)

/-- Tail check of the scheme test of `isValidUrl` (below): scans for the
colon that ends a URL scheme, accepting the scheme characters of the
WHATWG grammar before it. -/
def schemeTailValid : List Char → Bool
  | [] => false
  | c :: rest =>
    if c == ':' then true
    else (c.isAlpha || c.isDigit || c == '+' || c == '-' || c == '.') &&
      schemeTailValid rest

/-- Modelled from the spec: the source validates image references with
`new URL(string)` inside try/catch (`isValidUrl`, server.js lines
159-166).  The WHATWG constructor accepts a string that starts with an
ASCII-alphabetic scheme terminated by a colon; this model keeps exactly
that scheme test, which decides every input the pipeline feeds it. -/
def isValidUrl (s : String) : Bool :=
  match s.data with
  | [] => false
  | c :: rest => c.isAlpha && schemeTailValid rest

/-! ## TabularParser: the row scanner of `parseCSV` (lines 44-97) -/

/-- The guard `currentRow.some(field => field.trim() !== '')` of the
scanner: a row is kept only when some field is non-blank after trimming. -/
def rowNonBlank (row : List String) : Bool :=
  row.any (fun f => jsTrim f != "")

/-- The character loop of `parseCSV` (server.js lines 51-95): one
left-to-right scan with a quote flag, one character of lookahead for the
escaped quote `""` and for the `\r\n` pair, and the blank-row suppression
applied both at row separators and at the final flush.  The branches are
written as patterns (escaped quote and `\r\n` consume two characters, the
rest one) but decide exactly the same cases, in the same order, as the
if/else chain of the source loop. -/
def scanCSV : List Char → List (List String) → List String → List Char → Bool →
    List (List String)
  | [], rows, row, field, _inQuotes =>
    if field = [] ∧ row = [] then rows
    else
      let row' := row ++ [String.mk field]
      if rowNonBlank row' then rows ++ [row'] else rows
  | '"' :: '"' :: cs, rows, row, field, true =>
    scanCSV cs rows row (field ++ ['"']) true
  | '"' :: cs, rows, row, field, inQuotes =>
    scanCSV cs rows row field (!inQuotes)
  | ',' :: cs, rows, row, field, false =>
    scanCSV cs rows (row ++ [String.mk field]) [] false
  | '\r' :: '\n' :: cs, rows, row, field, false =>
    let row' := row ++ [String.mk field]
    let rows' := if rowNonBlank row' then rows ++ [row'] else rows
    scanCSV cs rows' [] [] false
  | '\n' :: cs, rows, row, field, false =>
    let row' := row ++ [String.mk field]
    let rows' := if rowNonBlank row' then rows ++ [row'] else rows
    scanCSV cs rows' [] [] false
  | '\r' :: cs, rows, row, field, false =>
    let row' := row ++ [String.mk field]
    let rows' := if rowNonBlank row' then rows ++ [row'] else rows
    scanCSV cs rows' [] [] false
  | c :: cs, rows, row, field, inQuotes =>
    scanCSV cs rows row (field ++ [c]) inQuotes

/-- The row-level contract of `parseCSV`: raw text to the list of rows
(the local `rows` value of the source, before club extraction). -/
def parseRows (s : String) : List (List String) :=
  scanCSV s.data [] [] [] false

example : parseRows "a,\"b,c\",\"d\"\"e\"" = [["a", "b,c", "d\"e"]] := by decide

/-! ## RecordExtractor: club extraction of `parseCSV` (lines 99-156) -/

/-- Worker of `collapseWs`: the flag records whether the previous
character was whitespace, so that a maximal whitespace run emits exactly
one hyphen. -/
def collapseWsAux : List Char → Bool → List Char
  | [], _ => []
  | c :: rest, inRun =>
    if isJsSpace c then
      if inRun then collapseWsAux rest true
      else '-' :: collapseWsAux rest true
    else c :: collapseWsAux rest false

/-- `.replace(/\s+/g, '-')` of `cleanClubName`: every maximal run of
whitespace becomes a single hyphen. -/
def collapseWs (l : List Char) : List Char := collapseWsAux l false

/-- The character kept by `.replace(/[^\w\s-]/g, '')` of `cleanClubName`. -/
def keepChar (c : Char) : Bool := wordChar c || isJsSpace c || c == '-'

/-- `cleanClubName` (server.js lines 169-175): strip the characters outside
`[\w\s-]`, turn whitespace runs into hyphens, lower-case, and truncate to
50 characters. -/
def cleanClubName (name : String) : String :=
  String.mk (((collapseWs (name.data.filter keepChar)).map toLowerChar).take 50)

example : cleanClubName "Unknown Club" = "unknown-club" := by decide
example : cleanClubName "  Philly  Run Club!! " = "-philly-run-club-" := by decide

/-- Worker of `splitComma`, accumulating the current piece in reverse. -/
def splitCommaAux : List Char → List Char → List (List Char)
  | [], acc => [acc.reverse]
  | c :: rest, acc =>
    if c = ',' then acc.reverse :: splitCommaAux rest []
    else splitCommaAux rest (c :: acc)

/-- `galleryImages.split(',')` of the gallery handling (line 147): the
pieces between commas, in order, empty pieces included. -/
def splitComma (s : String) : List String :=
  (splitCommaAux s.data []).map String.mk

example : splitComma "a:b, a:c" = ["a:b", " a:c"] := by decide
example : splitComma "," = ["", ""] := by decide

/-- One extracted submission: the `club` object built by `parseCSV`
(server.js lines 133-143). -/
structure Club where
  name : String
  originalName : String
  heroImage : Option String
  logoImage : Option String
  galleryImages : List String
  submissionId : String
  email : String
  rawData : List String
  deriving DecidableEq

/-- The body of the data-row loop of `parseCSV` (server.js lines 108-152):
rows shorter than 30 columns are skipped, the three image columns are
validated, and a club is materialized when the guard of line 129 passes.
Returns `none` exactly when the source pushes nothing for the row. -/
def rowToClub (values : List String) : Option Club :=
  if values.length < 30 then none
  else
    let clubName := values.getD 10 ""
    let heroImage := values.getD 27 ""
    let logoImage := values.getD 28 ""
    let galleryImages := values.getD 29 ""
    if (heroImage != "" && isValidUrl heroImage) ||
        (logoImage != "" && isValidUrl logoImage) ||
        (galleryImages != "" && jsTrim galleryImages != "") then
      some {
        name := cleanClubName (if clubName == "" then "Unknown Club" else clubName)
        originalName := clubName
        heroImage :=
          if heroImage != "" && isValidUrl heroImage then some heroImage else none
        logoImage :=
          if logoImage != "" && isValidUrl logoImage then some logoImage else none
        galleryImages :=
          if galleryImages != "" && jsTrim galleryImages != "" then
            ((splitComma galleryImages).map jsTrim).filter
              (fun u => u != "" && isValidUrl u)
          else []
        submissionId := values.getD 0 ""
        email := values.getD 8 ""
        rawData := values }
    else none

/-- The club-extraction phase of `parseCSV`: the first row is the header
(line 99), the remaining rows are mapped through the loop body; an empty
row list returns an empty result (line 97). -/
def extractClubs (rows : List (List String)) : List Club :=
  match rows with
  | [] => []
  | _headers :: dataRows => dataRows.filterMap rowToClub

/-- `parseCSV` (server.js lines 44-156): raw CSV text to extracted clubs. -/
def parseCSV (csvText : String) : List Club :=
  extractClubs (parseRows csvText)

/-! ## AssetTransform: `processImageToCloudinary` (lines 286-352) -/

/-- The first replacement of `generateAltText`: every hyphen becomes a
space. -/
def replaceHyphens (cs : List Char) : List Char :=
  cs.map (fun c => if c == '-' then ' ' else c)

/-- `.replace(/\b\w/g, l => l.toUpperCase())` of `generateAltText`: a word
character is upper-cased when the previous character is not a word
character (that is the regex word boundary); the flag carries whether the
previous character was a word character. -/
def titleCaseAux : List Char → Bool → List Char
  | [], _ => []
  | c :: rest, prevWord =>
    (if wordChar c && !prevWord then toUpperChar c else c) ::
      titleCaseAux rest (wordChar c)

/-- `generateAltText` (server.js lines 355-371): hyphens back to spaces,
title-casing, then the fixed template per image type. -/
def generateAltText (clubName imageType : String) : String :=
  let properClubName := String.mk (titleCaseAux (replaceHyphens clubName.data) false)
  if imageType == "hero" then properClubName ++ " hero image"
  else if imageType == "logo" then properClubName ++ " logo"
  else if imageType == "gallery-1" || imageType == "gallery-2" ||
      imageType == "gallery-3" || imageType == "gallery-4" then
    properClubName ++ " group photo"
  else properClubName ++ " image"

example : generateAltText "unknown-club" "hero" = "Unknown Club hero image" := by
  decide

/-- The `public_id` the upload request asks Cloudinary for (server.js
lines 313-319): the pure key `joinphilly/{cleanedName}-{imageType}`. -/
def requestedPublicId (clubName imageType : String) : String :=
  "joinphilly/" ++ clubName ++ "-" ++ imageType

/-- The fields of a successful Cloudinary upload response that the source
reads (`result.secure_url`, `result.public_id`, `result.width`,
`result.height`). -/
structure UploadOk where
  secureUrl : String
  publicId : String
  width : Nat
  height : Nat
  deriving DecidableEq

/-- The object `processImageToCloudinary` resolves with (server.js lines
332-342). -/
structure Asset where
  originalUrl : String
  cloudinaryUrl : String
  publicId : String
  filename : String
  altText : String
  width : Nat
  height : Nat
  type : String
  deriving DecidableEq

/-- `processImageToCloudinary` (server.js lines 286-352).  The effectful
part — download, Sharp resize to `targetWidth`, Cloudinary upload — is one
oracle taking the image URL, the requested public id and the target width,
and returning either the upload response or the message of the thrown
error.  The deterministic part (filename, requested public id, alt text,
the shape of the resolved object) is translated from the source. -/
def processImageToCloudinary
    (oracle : String → String → Nat → Except String UploadOk)
    (imageUrl clubName imageType : String) (targetWidth : Nat) :
    Except String Asset :=
  let filename := clubName ++ "-" ++ imageType
  match oracle imageUrl (requestedPublicId clubName imageType) targetWidth with
  | .error e => .error e
  | .ok result =>
    .ok {
      originalUrl := imageUrl
      cloudinaryUrl := result.secureUrl
      publicId := result.publicId
      filename := filename ++ ".webp"
      altText := generateAltText clubName imageType
      width := result.width
      height := result.height
      type := imageType }

/-! ## PipelineOrchestrator: the loop of `/api/process-images` (lines 197-250) -/

/-- An `AirtableUpdate` success object (`updateAirtableRecord`, lines
517-522). -/
structure AirtableUpdate where
  recordId : String
  fieldsUpdated : Nat
  message : String
  deriving DecidableEq

/-- The `clubResult` object of the handler loop (server.js lines 199-208). -/
structure ClubResult where
  name : String
  cleanName : String
  submissionId : String
  email : String
  processed : List Asset
  errors : List String
  cloudinaryUrls : List String
  airtableUpdate : Option AirtableUpdate
  deriving DecidableEq

/-- The gallery sub-loop of the handler (server.js lines 235-247): at most
four entries, each guarded by truthiness, each try/catch isolated, with
the error label `Gallery image {i+1}`. -/
def galleryLoop (oracle : String → String → Nat → Except String UploadOk)
    (cleanName : String) : List String → Nat → ClubResult → ClubResult
  | [], _, r => r
  | u :: rest, i, r =>
    let r' :=
      if u != "" then
        match processImageToCloudinary oracle u cleanName ("gallery-" ++ toString i) 1200 with
        | .ok p =>
          { r with processed := r.processed ++ [p]
                   cloudinaryUrls := r.cloudinaryUrls ++ [p.cloudinaryUrl] }
        | .error e =>
          { r with errors := r.errors ++ ["Gallery image " ++ toString i ++ ": " ++ e] }
      else r
    galleryLoop oracle cleanName rest (i + 1) r'

/-- The body of the per-club loop of the `/api/process-images` handler
(server.js lines 197-249): hero, then logo, then up to four gallery
images, every slot isolated by its own try/catch. -/
def processClub (oracle : String → String → Nat → Except String UploadOk)
    (club : Club) : ClubResult :=
  let r0 : ClubResult :=
    { name := club.originalName, cleanName := club.name
      submissionId := club.submissionId, email := club.email
      processed := [], errors := [], cloudinaryUrls := [], airtableUpdate := none }
  let r1 :=
    match club.heroImage with
    | none => r0
    | some u =>
      match processImageToCloudinary oracle u club.name "hero" 1600 with
      | .ok p =>
        { r0 with processed := r0.processed ++ [p]
                  cloudinaryUrls := r0.cloudinaryUrls ++ [p.cloudinaryUrl] }
      | .error e => { r0 with errors := r0.errors ++ ["Hero image: " ++ e] }
  let r2 :=
    match club.logoImage with
    | none => r1
    | some u =>
      match processImageToCloudinary oracle u club.name "logo" 400 with
      | .ok p =>
        { r1 with processed := r1.processed ++ [p]
                  cloudinaryUrls := r1.cloudinaryUrls ++ [p.cloudinaryUrl] }
      | .error e => { r1 with errors := r1.errors ++ ["Logo image: " ++ e] }
  galleryLoop oracle club.name (club.galleryImages.take 4) 1 r2

/-- The per-club loop of the handler: one result per club, in input order
(server.js lines 195-250). -/
def processClubs (oracle : String → String → Nat → Except String UploadOk)
    (clubs : List Club) : List ClubResult :=
  clubs.map (processClub oracle)

/-! ## RecordReconciler: `updateAirtableRecord` (lines 374-528)

The two Airtable HTTP interactions are abstracted into oracles: a search
oracle answering one filter query with `{ok, records}` (the two response
fields the source reads), and an update oracle answering the PATCH
request.  Everything else — which queries are issued, in which order, when
the loop stops, which error is thrown, which fields are written — is
translated from the source. -/

/-- One Airtable search query: by the `Submission ID` field (strategy 1,
line 389) or by the `Name` field (strategy 2, line 414). -/
inductive Query
  | bySubmissionId (s : String)
  | byName (s : String)
  deriving DecidableEq

/-- The part of an Airtable search response the source reads:
`searchResponse.ok` and `searchData.records` (as the list of record ids). -/
structure SearchResp where
  ok : Bool
  records : List String
  deriving DecidableEq

/-- The errors `updateAirtableRecord` can throw.  `typeError` is the
JavaScript `TypeError` raised at line 436 when `searchResponse` is still
`undefined` (no search was attempted) and `.ok` is read from it. -/
inductive AirtableErr
  | typeError
  | searchFailed
  | noMatch (submissionId name : String)
  | updateFailed
  deriving DecidableEq

/-- The `error.message` the caller interpolates into
`Airtable update failed: ...` (server.js line 262). -/
def errMessage : AirtableErr → String
  | .typeError => "Cannot read properties of undefined (reading ok)"
  | .searchFailed => "Airtable search failed"
  | .noMatch submissionId name =>
    "No matching Airtable record found. Tried Submission ID \"" ++ submissionId ++
      "\" and Name \"" ++ name ++ "\""
  | .updateFailed => "Airtable update failed"

/-- The name list of strategy 2 (line 411): original name first, then the
cleaned name, keeping only non-blank entries. -/
def nameCandidates (r : ClubResult) : List String :=
  [r.name, r.cleanName].filter (fun n => n != "" && jsTrim n != "")

/-- The strategy-2 loop (lines 413-431): one query per candidate name,
tracking the last response (`searchResponse`), the last ok response
(`searchData`) and the issued queries; the loop breaks at the first ok
response with a non-empty record list. -/
def nameLoop (oracle : Query → SearchResp) :
    List String → List Query → Option SearchResp → Option SearchResp →
    List Query × Option SearchResp × Option SearchResp
  | [], trace, resp, data => (trace, resp, data)
  | n :: rest, trace, _resp, data =>
    let q := Query.byName n
    let res := oracle q
    if res.ok then
      if res.records.isEmpty then nameLoop oracle rest (trace ++ [q]) (some res) (some res)
      else (trace ++ [q], some res, some res)
    else nameLoop oracle rest (trace ++ [q]) (some res) data

/-- The guard `!searchData || searchData.records.length === 0` (line 408). -/
def hasData : Option SearchResp → Bool
  | none => false
  | some d => !d.records.isEmpty

/-- The search portion of `updateAirtableRecord` (lines 384-433): strategy
1 (Submission ID) when the id is non-blank, then strategy 2 (names) when
no data was found and the original name is non-blank.  Returns the issued
queries, the final `searchResponse` and the final `searchData`. -/
def searchPhase (oracle : Query → SearchResp) (r : ClubResult) :
    List Query × Option SearchResp × Option SearchResp :=
  let step1 :=
    if r.submissionId != "" && jsTrim r.submissionId != "" then
      let q := Query.bySubmissionId r.submissionId
      let res := oracle q
      ([q], some res, if res.ok then some res else none)
    else ([], none, none)
  if !hasData step1.2.2 then
    if r.name != "" && jsTrim r.name != "" then
      nameLoop oracle (nameCandidates r) step1.1 step1.2.1 step1.2.2
    else step1
  else step1

/-- The queries `updateAirtableRecord` sends for one result, in order. -/
def searchTrace (oracle : Query → SearchResp) (r : ClubResult) : List Query :=
  (searchPhase oracle r).1

/-- The outcome checks after the search (lines 436-450): reading `.ok` of
an absent response is a `TypeError`; a failed last response is a search
failure; no data or an empty record list is the no-match error; otherwise
the first record is the match. -/
def searchOutcome (oracle : Query → SearchResp) (r : ClubResult) :
    Except AirtableErr String :=
  match (searchPhase oracle r).2.1 with
  | none => .error .typeError
  | some res =>
    if !res.ok then .error .searchFailed
    else
      match (searchPhase oracle r).2.2 with
      | none => .error (.noMatch r.submissionId r.name)
      | some d =>
        match d.records with
        | [] => .error (.noMatch r.submissionId r.name)
        | recordId :: _ => .ok recordId

/-- A value of the `updateFields` map (lines 454-494): plain strings, the
number `1` of the `Processed` marker, the JSON-stringified gallery list of
the main server, and the attachment-object gallery list of the webhook
server variant. -/
inductive FieldVal
  | str (s : String)
  | num (n : Nat)
  | jsonArr (urls : List String)
  | attachments (urls : List String)
  deriving DecidableEq

/-- JavaScript object assignment `updateFields[k] = v` on the association
list: replace the value in place when the key exists, append otherwise. -/
def setField (m : List (String × FieldVal)) (k : String) (v : FieldVal) :
    List (String × FieldVal) :=
  if m.any (fun p => p.1 == k) then
    m.map (fun p => if p.1 == k then (k, v) else p)
  else m ++ [(k, v)]

/-- The sparse `galleryUrls` array (lines 455, 469-481): one slot per
gallery position. -/
structure GalleryAcc where
  g1 : Option String
  g2 : Option String
  g3 : Option String
  g4 : Option String
  deriving DecidableEq

/-- The initial empty `galleryUrls` array. -/
def GalleryAcc.empty : GalleryAcc := ⟨none, none, none, none⟩

/-- `galleryUrls.length > 0` (line 487): in JavaScript the sparse array
has positive length exactly when some position was assigned. -/
def GalleryAcc.anySet (g : GalleryAcc) : Bool :=
  g.g1.isSome || g.g2.isSome || g.g3.isSome || g.g4.isSome

/-- `galleryUrls.filter(url => url)` (line 488): the assigned, non-empty
entries in position order. -/
def GalleryAcc.toList (g : GalleryAcc) : List String :=
  ([g.g1, g.g2, g.g3, g.g4].filterMap id).filter (fun u => u != "")

/-- The `switch (processed.type)` body of the update-field loop (lines
457-484): hero and logo write URL and alt text, a gallery slot writes its
alt text and records its URL in the sparse gallery array, anything else
writes nothing. -/
def applySlot (st : List (String × FieldVal) × GalleryAcc) (p : Asset) :
    List (String × FieldVal) × GalleryAcc :=
  if p.type == "hero" then
    (setField (setField st.1 "Hero URL" (.str p.cloudinaryUrl)) "Hero Alt Text"
      (.str p.altText), st.2)
  else if p.type == "logo" then
    (setField (setField st.1 "Logo URL" (.str p.cloudinaryUrl)) "Logo Alt Text"
      (.str p.altText), st.2)
  else if p.type == "gallery-1" then
    (setField st.1 "Gallery 1 Alt Text" (.str p.altText), { st.2 with g1 := some p.cloudinaryUrl })
  else if p.type == "gallery-2" then
    (setField st.1 "Gallery 2 Alt Text" (.str p.altText), { st.2 with g2 := some p.cloudinaryUrl })
  else if p.type == "gallery-3" then
    (setField st.1 "Gallery 3 Alt Text" (.str p.altText), { st.2 with g3 := some p.cloudinaryUrl })
  else if p.type == "gallery-4" then
    (setField st.1 "Gallery 4 Alt Text" (.str p.altText), { st.2 with g4 := some p.cloudinaryUrl })
  else st

/-- The `updateFields` map of the main server (part_000 lines 453-494):
the slot loop, then the aggregate `Gallery URLs (JSON)` field when any
gallery slot was written, then the unconditional `Status`,
`Last Modified` and `Processed` markers.  `now` is the
`new Date().toISOString()` timestamp. -/
def buildUpdateFields (now : String) (processed : List Asset) :
    List (String × FieldVal) :=
  let st := processed.foldl applySlot ([], GalleryAcc.empty)
  let m1 := if st.2.anySet then
      setField st.1 "Gallery URLs (JSON)" (.jsonArr st.2.toList)
    else st.1
  let m2 := setField m1 "Status" (.str "Images Processed")
  let m3 := setField m2 "Last Modified" (.str now)
  setField m3 "Processed" (.num 1)

/-- The `updateFields` map of the webhook server variant (part_001 lines
650-686): the same slot loop, an attachment-style `Photo Gallery Url`
aggregate, and no marker fields. -/
def buildUpdateFieldsB (processed : List Asset) : List (String × FieldVal) :=
  let st := processed.foldl applySlot ([], GalleryAcc.empty)
  if st.2.anySet then
    setField st.1 "Photo Gallery Url" (.attachments st.2.toList)
  else st.1

/-- The keys of an update map (`Object.keys(updateFields)`). -/
def keysOf (m : List (String × FieldVal)) : List String := m.map Prod.fst

/-- The record-update request of lines 497-507: a partial-field PATCH of
exactly the built map to the matched record. -/
structure UpdateRequest where
  recordId : String
  httpMethod : String
  fields : List (String × FieldVal)

/-- How the source builds the update request (lines 497-507): always the
PATCH method, always exactly the `updateFields` map in the body. -/
def mkUpdateRequest (recordId : String) (fields : List (String × FieldVal)) :
    UpdateRequest :=
  { recordId := recordId, httpMethod := "PATCH", fields := fields }

/-- `updateAirtableRecord` (part_000 lines 374-528): search, then build
the field map, then PATCH; a failed PATCH throws, a successful one returns
the `{recordId, fieldsUpdated, message}` summary. -/
def updateAirtableRecordM (oracle : Query → SearchResp)
    (updateOk : UpdateRequest → Bool) (now : String) (r : ClubResult) :
    Except AirtableErr AirtableUpdate :=
  match searchOutcome oracle r with
  | .error e => .error e
  | .ok recordId =>
    let fields := buildUpdateFields now r.processed
    if updateOk (mkUpdateRequest recordId fields) then
      .ok { recordId := recordId, fieldsUpdated := fields.length
            message := "Updated " ++ toString fields.length ++ " fields in Airtable" }
    else .error .updateFailed

/-- One step of the Airtable phase of the handler (lines 255-265): a
result with at least one processed asset is reconciled; a reconciliation
error is recorded as a per-submission error and nothing else changes. -/
def airtableStep (recon : ClubResult → Except AirtableErr AirtableUpdate)
    (r : ClubResult) : ClubResult :=
  if r.processed.length > 0 then
    match recon r with
    | .ok u => { r with airtableUpdate := some u }
    | .error e =>
      { r with errors := r.errors ++ ["Airtable update failed: " ++ errMessage e] }
  else r

/-- The Airtable phase of the handler (lines 253-268): every result is
visited in order, failures never stop the loop. -/
def applyAirtablePhase (recon : ClubResult → Except AirtableErr AirtableUpdate)
    (results : List ClubResult) : List ClubResult :=
  results.map (airtableStep recon)

/-! ## Concrete inputs used in counterexamples and witnesses -/

/-- A CSV with a header and one 30-column data row whose only non-empty
image field is the gallery column holding the quoted text `","`: non-blank,
but yielding no valid URL. -/
def csvC1 : String :=
  "h\n" ++ String.intercalate "," (((List.replicate 30 "").set 29 "\",\""))

/-- A CSV with a header and two 30-column data rows with distinct
submission ids, both with a blank club-name column and a valid hero URL. -/
def csvC10 : String :=
  "h\n" ++
    String.intercalate "," ((((List.replicate 30 "").set 0 "s1").set 27 "a:b")) ++
    "\n" ++
    String.intercalate "," ((((List.replicate 30 "").set 0 "s2").set 27 "a:c"))

/-- A small CSV with one data row carrying a submission id and a hero URL. -/
def csvW : String :=
  "h\n" ++ String.intercalate "," ((((List.replicate 30 "").set 0 "s").set 27 "a:b"))

/-- A concrete successfully processed hero asset. -/
def assetHeroCx : Asset :=
  { originalUrl := "a:b", cloudinaryUrl := "a:c", publicId := "p", filename := "f"
    altText := "t", width := 1, height := 1, type := "hero" }

/-- A pipeline result whose submission id and original club name are both
blank (a row with empty first and eleventh columns), with one processed
asset so that the caller does attempt reconciliation. -/
def rBlankCx : ClubResult :=
  { name := "", cleanName := "unknown-club", submissionId := "", email := ""
    processed := [assetHeroCx], errors := [], cloudinaryUrls := ["a:c"]
    airtableUpdate := none }

/-- A search oracle that answers every query with a match. -/
def searchOracleCx : Query → SearchResp := fun _ => { ok := true, records := ["rec1"] }

/-! ## Theorems -/

/-- C6: `parse` applied to `a,"b,c","d""e"` returns exactly one row with
the three fields `a`, `b,c` and `d"e`: an embedded comma inside quotes
stays in its field and a doubled quote becomes one literal quote. -/
theorem c6_quoted_parsing :
    parseRows "a,\"b,c\",\"d\"\"e\"" = [["a", "b,c", "d\"e"]] := by decide

/-- C1 counterexample: the claim says a row whose three image fields yield
zero valid image references produces no Submission.  On `csvC1` the
extractor does materialize a club — its gallery column `","` is non-blank,
so the guard passes — yet the club has no hero, no logo and an empty
gallery list. -/
theorem c1_counterexample :
    (parseCSV csvC1).map (fun c => (c.heroImage, c.logoImage, c.galleryImages)) =
      [(none, none, [])] := by decide

/-- C10: the slug is not injective (two distinct raw names clean to the
same slug), and two distinct submissions whose club-name column is blank
both receive the default cleaned name `unknown-club`, so the pure storage
key `joinphilly/{cleanedName}-{role}` coincides for the same role and the
second upload lands on the key of the first. -/
theorem c10_storage_key_collision :
    ((parseCSV csvC10).map (fun c => c.submissionId)) = ["s1", "s2"]
  ∧ ((parseCSV csvC10).map (fun c => c.name)) = ["unknown-club", "unknown-club"]
  ∧ ((parseCSV csvC10).map (fun c => requestedPublicId c.name "hero")) =
      ["joinphilly/unknown-club-hero", "joinphilly/unknown-club-hero"]
  ∧ cleanClubName "Run Club" = cleanClubName "RUN  CLUB"
  ∧ "Run Club" ≠ "RUN  CLUB" := by decide

/-- C4 counterexample: the claim says the status/last-modified markers are
included in the update map unconditionally on every successful match; the
webhook server variant (part_001 lines 650-698) builds its map for a
successfully matched hero-only result with no `Status` and no
`Last Modified` key. -/
theorem c4_counterexample :
    keysOf (buildUpdateFieldsB [assetHeroCx]) = ["Hero URL", "Hero Alt Text"]
  ∧ "Status" ∉ keysOf (buildUpdateFieldsB [assetHeroCx])
  ∧ "Last Modified" ∉ keysOf (buildUpdateFieldsB [assetHeroCx]) := by decide

/-- C5 counterexample: the claim says that when both the submission id and
the display name are blank (so no search is attempted) reconciliation
fails with the NoMatch error; the source instead reads `.ok` from the
never-assigned `searchResponse`, raising a TypeError, even when the store
would have matched every query. -/
theorem c5_counterexample :
    updateAirtableRecordM searchOracleCx (fun _ => true) "t" rBlankCx =
      .error .typeError
  ∧ AirtableErr.typeError ≠ AirtableErr.noMatch "" "" := ⟨rfl, by decide⟩





/-- Helper for C7: every row the scanner ever emits was either already in
the accumulator or passed the non-blank guard. -/
theorem scanCSV_mem (cs : List Char) (rows : List (List String))
    (row : List String) (field : List Char) (inQuotes : Bool) :
    ∀ r ∈ scanCSV cs rows row field inQuotes, r ∈ rows ∨ rowNonBlank r = true := by
  induction cs, rows, row, field, inQuotes using scanCSV.induct with
  | case1 rows row field q hfr =>
    intro r hr
    simp only [scanCSV, if_pos hfr] at hr
    exact Or.inl hr
  | case2 rows row field q hfr row' hb =>
    intro r hr
    simp only [scanCSV, if_neg hfr, if_pos hb] at hr
    rcases List.mem_append.1 hr with h1 | h1
    · exact Or.inl h1
    · simp only [List.mem_singleton] at h1
      subst h1
      exact Or.inr hb
  | case3 rows row field q hfr row' hb =>
    intro r hr
    simp only [scanCSV, if_neg hfr, if_neg hb] at hr
    exact Or.inl hr
  | case4 cs rows row field ih =>
    intro r hr
    simp only [scanCSV] at hr
    exact ih r hr
  | case5 cs rows row field q hside ih =>
    intro r hr
    rw [scanCSV.eq_3 _ _ _ _ _ hside] at hr
    exact ih r hr
  | case6 cs rows row field ih =>
    intro r hr
    simp only [scanCSV] at hr
    exact ih r hr
  | case7 cs rows row field row' rows' ih =>
    intro r hr
    simp only [scanCSV] at hr
    rcases ih r hr with h1 | h1
    · have h2 : r ∈ (if rowNonBlank (row ++ [String.mk field]) = true
          then rows ++ [row ++ [String.mk field]] else rows) := h1
      split at h2
      · rcases List.mem_append.1 h2 with h3 | h3
        · exact Or.inl h3
        · simp only [List.mem_singleton] at h3
          subst h3
          exact Or.inr (by assumption)
      · exact Or.inl h2
    · exact Or.inr h1
  | case8 cs rows row field row' rows' ih =>
    intro r hr
    simp only [scanCSV] at hr
    rcases ih r hr with h1 | h1
    · have h2 : r ∈ (if rowNonBlank (row ++ [String.mk field]) = true
          then rows ++ [row ++ [String.mk field]] else rows) := h1
      split at h2
      · rcases List.mem_append.1 h2 with h3 | h3
        · exact Or.inl h3
        · simp only [List.mem_singleton] at h3
          subst h3
          exact Or.inr (by assumption)
      · exact Or.inl h2
    · exact Or.inr h1
  | case9 cs rows row field hside row' rows' ih =>
    intro r hr
    rw [scanCSV.eq_7 _ _ _ _ hside] at hr
    rcases ih r hr with h1 | h1
    · have h2 : r ∈ (if rowNonBlank (row ++ [String.mk field]) = true
          then rows ++ [row ++ [String.mk field]] else rows) := h1
      split at h2
      · rcases List.mem_append.1 h2 with h3 | h3
        · exact Or.inl h3
        · simp only [List.mem_singleton] at h3
          subst h3
          exact Or.inr (by assumption)
      · exact Or.inl h2
    · exact Or.inr h1
  | case10 c cs rows row field q h1 h2 h3 h4 h5 h6 ih =>
    intro r hr
    rw [scanCSV.eq_8 _ _ _ _ _ _ h2 h1 h3 h4 h5 h6] at hr
    exact ih r hr

/-- C7: every row returned by `parse` has at least one field that is
non-blank after trimming; blank or whitespace-only lines, wherever they
occur (trailing and unterminated final lines included), never contribute a
row. -/
theorem c7_rows_non_blank (csv : String) (row : List String)
    (h : row ∈ parseRows csv) : ∃ f ∈ row, jsTrim f ≠ "" := by
  have hmem := scanCSV_mem csv.data [] [] [] false row h
  rcases hmem with h1 | h1
  · simp at h1
  · simpa [rowNonBlank, List.any_eq_true, bne_iff_ne] using h1

/-- Witness for C7 at the concrete input `"a"`. -/
theorem c7_witness : ∃ f ∈ ["a"], jsTrim f ≠ "" :=
  c7_rows_non_blank "a" ["a"] (by decide)

/-- Helper for C8: once inside an unclosed quote, every remaining
character (commas and newlines included) is appended to the current field
and the scan just runs to the end-of-input flush. -/
theorem scanCSV_no_quote (cs : List Char) (h : '"' ∉ cs)
    (rows : List (List String)) (row : List String) (field : List Char) :
    scanCSV cs rows row field true = scanCSV [] rows row (field ++ cs) true := by
  induction cs generalizing field with
  | nil => simp
  | cons c cs ih =>
    have hc : c ≠ '"' := fun e => h (e ▸ List.mem_cons_self c cs)
    have hcs : '"' ∉ cs := fun e => h (List.mem_cons_of_mem _ e)
    rw [scanCSV.eq_8 rows row field true c cs hc
        (fun _ e _ _ => absurd e hc) (fun _ e => Bool.noConfusion e)
        (fun _ _ _ e => Bool.noConfusion e) (fun _ e => Bool.noConfusion e)
        (fun _ e => Bool.noConfusion e),
      ih hcs]
    simp

/-- C8: the parser is total — it is a structurally recursive function, so
it terminates on every input and raises nothing — and an input that ends
inside an unclosed quoted field is accepted: the unterminated quoted
content becomes the final field of the final row (kept here because the
first field `a` makes the row non-blank). -/
theorem c8_unterminated_quote_lenient (cs : List Char) (h : '"' ∉ cs) :
    parseRows (String.mk ('a' :: ',' :: '"' :: cs)) = [["a", String.mk cs]] := by
  show scanCSV ('a' :: ',' :: '"' :: cs) [] [] [] false = _
  rw [scanCSV.eq_8 [] [] [] false 'a' (',' :: '"' :: cs)
      (fun e => absurd e (by decide)) (fun _ e _ _ => absurd e (by decide))
      (fun e _ => absurd e (by decide)) (fun _ e _ _ => absurd e (by decide))
      (fun e _ => absurd e (by decide)) (fun e _ => absurd e (by decide))]
  rw [scanCSV.eq_4]
  rw [scanCSV.eq_3 _ _ _ _ _ (fun _ _ e => Bool.noConfusion e)]
  simp only [Bool.not_false]
  rw [scanCSV_no_quote cs h]
  have hnb : rowNonBlank (([] ++ [String.mk ([] ++ ['a'])]) ++ [String.mk (([] : List Char) ++ cs)]) = true := by
    have h1 : (jsTrim (String.mk ['a']) != "") = true := by decide
    simp [rowNonBlank, h1]
  rw [scanCSV.eq_1]
  rw [if_neg (by simp : ¬(([] : List Char) ++ cs = [] ∧ ([] : List String) ++ [String.mk ([] ++ ['a'])] = []))]
  simp only [hnb, if_pos]
  simp

/-- Witness for C8 at the concrete tail `b,c\nd` (comma and newline stay
inside the unterminated quoted field). -/
theorem c8_witness :
    parseRows (String.mk ('a' :: ',' :: '"' :: "b,c\nd".data)) =
      [["a", String.mk "b,c\nd".data]] :=
  c8_unterminated_quote_lenient "b,c\nd".data (by decide)

/-- Helper for C9: a whitespace character is never a word character. -/
theorem space_not_word (c : Char) (h : isJsSpace c = true) : wordChar c = false := by
  simp only [isJsSpace, Bool.or_eq_true, beq_iff_eq] at h
  casesm* _ ∨ _ <;> subst_vars <;> decide

/-- Helper for C9: a word character is never whitespace. -/
theorem word_not_space (c : Char) (h : wordChar c = true) : isJsSpace c = false := by
  by_contra hs
  rw [Bool.not_eq_false] at hs
  rw [space_not_word c hs] at h
  exact Bool.noConfusion h

/-- Helper for C9: lower-casing a word character or hyphen yields a word
character or hyphen that is not whitespace and is a fixed point of
lower-casing. -/
theorem toLowerChar_fix (c : Char) (h : wordChar c = true ∨ c = '-') :
    (wordChar (toLowerChar c) = true ∨ toLowerChar c = '-')
  ∧ isJsSpace (toLowerChar c) = false
  ∧ toLowerChar (toLowerChar c) = toLowerChar c := by
  rcases h with h | rfl
  · by_cases hu : 65 ≤ c.toNat ∧ c.toNat ≤ 90
    · rw [toLowerChar, if_pos hu]
      obtain ⟨h1, h2⟩ := hu
      generalize c.toNat = n at h1 h2
      interval_cases n <;> exact ⟨Or.inl (by decide), by decide, by decide⟩
    · rw [toLowerChar, if_neg hu]
      exact ⟨Or.inl h, word_not_space c h, by rw [toLowerChar, if_neg hu]⟩
  · exact ⟨Or.inr rfl, by decide, by decide⟩

/-- Helper for C9: the whitespace collapse only emits hyphens and
non-whitespace characters of its input. -/
theorem mem_collapseWsAux (l : List Char) (b : Bool) (c : Char)
    (h : c ∈ collapseWsAux l b) : c = '-' ∨ (c ∈ l ∧ isJsSpace c = false) := by
  induction l generalizing b with
  | nil => simp [collapseWsAux] at h
  | cons d l ih =>
    simp only [collapseWsAux] at h
    by_cases hd : isJsSpace d = true
    · rw [if_pos hd] at h
      cases b with
      | true =>
        rw [if_pos rfl] at h
        rcases ih _ h with h1 | ⟨h1, h2⟩
        · exact Or.inl h1
        · exact Or.inr ⟨List.mem_cons_of_mem _ h1, h2⟩
      | false =>
        rw [if_neg (by decide)] at h
        rcases List.mem_cons.1 h with rfl | h1
        · exact Or.inl rfl
        · rcases ih _ h1 with h2 | ⟨h2, h3⟩
          · exact Or.inl h2
          · exact Or.inr ⟨List.mem_cons_of_mem _ h2, h3⟩
    · rw [if_neg hd] at h
      have hd' : isJsSpace d = false := by rwa [Bool.not_eq_true] at hd
      rcases List.mem_cons.1 h with rfl | h1
      · exact Or.inr ⟨List.mem_cons_self .., hd'⟩
      · rcases ih _ h1 with h2 | ⟨h2, h3⟩
        · exact Or.inl h2
        · exact Or.inr ⟨List.mem_cons_of_mem _ h2, h3⟩

/-- Helper for C9: the whitespace collapse leaves a whitespace-free list
unchanged. -/
theorem collapseWsAux_no_space (l : List Char)
    (h : ∀ c ∈ l, isJsSpace c = false) : ∀ b, collapseWsAux l b = l := by
  induction l with
  | nil => intro b; rfl
  | cons d l ih =>
    intro b
    have hd : isJsSpace d = false := h d (List.mem_cons_self ..)
    simp only [collapseWsAux, hd, Bool.false_eq_true, if_false]
    exact congrArg _ (ih (fun c hc => h c (List.mem_cons_of_mem d hc)) false)

/-- Helper for C9: every character of a cleaned club name survives the
strip filter, is not whitespace, and is already lower-case. -/
theorem cleanClubName_chars (s : String) (c : Char)
    (h : c ∈ (cleanClubName s).data) :
    keepChar c = true ∧ isJsSpace c = false ∧ toLowerChar c = c := by
  have h1 : c ∈ (collapseWs (s.data.filter keepChar)).map toLowerChar :=
    List.take_subset _ _ h
  rcases List.mem_map.1 h1 with ⟨p, hp, rfl⟩
  have hword : wordChar p = true ∨ p = '-' := by
    rcases mem_collapseWsAux _ _ _ hp with h2 | ⟨h2, h3⟩
    · exact Or.inr h2
    · have h4 : keepChar p = true := (List.mem_filter.1 h2).2
      simp only [keepChar, Bool.or_eq_true, beq_iff_eq] at h4
      rcases h4 with (h5 | h5) | h5
      · exact Or.inl h5
      · rw [h5] at h3; exact absurd h3 (by simp)
      · exact Or.inr h5
  obtain ⟨ha, hb, hc⟩ := toLowerChar_fix p hword
  refine ⟨?_, hb, hc⟩
  rcases ha with ha | ha
  · simp [keepChar, ha]
  · simp [keepChar, ha]

/-- C9: the slug normalization is idempotent — applying `cleanClubName`
to its own output returns that output unchanged, for every input string. -/
theorem c9_slug_idempotent (s : String) :
    cleanClubName (cleanClubName s) = cleanClubName s := by
  have hchars := cleanClubName_chars s
  have h1 : (cleanClubName s).data.filter keepChar = (cleanClubName s).data :=
    List.filter_eq_self.mpr (fun c hc => (hchars c hc).1)
  have h2 : collapseWs ((cleanClubName s).data) = (cleanClubName s).data :=
    collapseWsAux_no_space _ (fun c hc => (hchars c hc).2.1) false
  have h3 : (cleanClubName s).data.map toLowerChar = (cleanClubName s).data := by
    calc (cleanClubName s).data.map toLowerChar
        = (cleanClubName s).data.map id :=
          List.map_congr_left (fun c hc => (hchars c hc).2.2)
      _ = (cleanClubName s).data := List.map_id _
  have hlen : (cleanClubName s).data.length ≤ 50 := by
    show (((collapseWs (s.data.filter keepChar)).map toLowerChar).take 50).length ≤ 50
    exact (List.length_take ..).trans_le (Nat.min_le_left ..)
  have h4 : (cleanClubName s).data.take 50 = (cleanClubName s).data :=
    List.take_of_length_le hlen
  show String.mk (((collapseWs ((cleanClubName s).data.filter keepChar)).map
      toLowerChar).take 50) = cleanClubName s
  rw [h1, h2, h3, h4]

/-- Helper for C1: inversion of the row-to-club materialization — every
materialized club has only valid present references, and its row passed
the guard of line 129. -/
theorem rowToClub_inv (values : List String) (club : Club)
    (h : rowToClub values = some club) :
    (∀ u, club.heroImage = some u → isValidUrl u = true)
  ∧ (∀ u, club.logoImage = some u → isValidUrl u = true)
  ∧ (∀ u ∈ club.galleryImages, u ≠ "" ∧ isValidUrl u = true)
  ∧ (club.heroImage.isSome = true ∨ club.logoImage.isSome = true ∨
      jsTrim (club.rawData.getD 29 "") ≠ "") := by
  unfold rowToClub at h
  split at h
  · exact absurd h (by simp)
  · dsimp only at h
    split at h
    case isTrue hguard =>
      rw [Option.some.injEq] at h
      subst h
      refine ⟨?_, ?_, ?_, ?_⟩
      · intro u hu
        simp only at hu
        split at hu
        case isTrue hc =>
          rw [Option.some.injEq] at hu
          subst hu
          simp only [Bool.and_eq_true] at hc
          exact hc.2
        case isFalse => exact absurd hu (by simp)
      · intro u hu
        simp only at hu
        split at hu
        case isTrue hc =>
          rw [Option.some.injEq] at hu
          subst hu
          simp only [Bool.and_eq_true] at hc
          exact hc.2
        case isFalse => exact absurd hu (by simp)
      · intro u hu
        simp only at hu
        split at hu
        case isTrue =>
          have hm := (List.mem_filter.1 hu).2
          simp only [Bool.and_eq_true, bne_iff_ne] at hm
          exact hm
        case isFalse => exact absurd hu (by simp)
      · simp only [Bool.or_eq_true] at hguard
        rcases hguard with (hg | hg) | hg
        · refine Or.inl ?_
          simp only [hg]
          rfl
        · refine Or.inr (Or.inl ?_)
          simp only [hg]
          rfl
        · refine Or.inr (Or.inr ?_)
          simp only [Bool.and_eq_true, bne_iff_ne] at hg
          exact hg.2
    case isFalse => exact absurd h (by simp)

/-- C1 (amended): every present reference of a materialized Submission is
a syntactically valid URL (hero and logo when present, every gallery
entry), and a Submission is materialized only when its row had a valid
hero, a valid logo, or a non-blank gallery column — but, as
`c1_counterexample` shows, a non-blank gallery column that yields no valid
URL still materializes a Submission with zero image references. -/
theorem c1_amended_refs_valid (csv : String) (club : Club)
    (h : club ∈ parseCSV csv) :
    (∀ u, club.heroImage = some u → isValidUrl u = true)
  ∧ (∀ u, club.logoImage = some u → isValidUrl u = true)
  ∧ (∀ u ∈ club.galleryImages, u ≠ "" ∧ isValidUrl u = true)
  ∧ (club.heroImage.isSome = true ∨ club.logoImage.isSome = true ∨
      jsTrim (club.rawData.getD 29 "") ≠ "") := by
  unfold parseCSV extractClubs at h
  rcases hrows : parseRows csv with _ | ⟨hd, dataRows⟩
  · rw [hrows] at h
    exact absurd h (by simp)
  · rw [hrows] at h
    rcases List.mem_filterMap.1 h with ⟨values, _, hv⟩
    exact rowToClub_inv values club hv

/-- The single club extracted from `csvW`, used as the C1 witness input. -/
def clubW : Club := (parseCSV csvW).headD
  { name := "", originalName := "", heroImage := none, logoImage := none,
    galleryImages := [], submissionId := "", email := "", rawData := [] }

/-- Witness for C1 (amended) at the concrete input `csvW`. -/
theorem c1_witness :
    clubW.heroImage.isSome = true ∨ clubW.logoImage.isSome = true ∨
      jsTrim (clubW.rawData.getD 29 "") ≠ "" :=
  (c1_amended_refs_valid csvW clubW (by decide)).2.2.2

/-- C2: the orchestrator produces exactly one result per Submission, in
input order, each independent of the others (so no failure aborts later
Submissions); and for a Submission with a failing hero URL, a succeeding
logo URL and no gallery entries, the result has exactly one asset (the
logo) and exactly one slot error (the hero). -/
theorem c2_orchestrator_isolation
    (oracle : String → String → Nat → Except String UploadOk)
    (clubs : List Club) :
    (processClubs oracle clubs).length = clubs.length
  ∧ (∀ i : Nat, (processClubs oracle clubs)[i]? = (clubs[i]?).map (processClub oracle))
  ∧ (∀ (club : Club) (hu lu e : String) (ud : UploadOk),
      club.heroImage = some hu → club.logoImage = some lu →
      club.galleryImages = [] →
      oracle hu (requestedPublicId club.name "hero") 1600 = .error e →
      oracle lu (requestedPublicId club.name "logo") 400 = .ok ud →
      (processClub oracle club).processed.map (fun a => a.type) = ["logo"]
        ∧ (processClub oracle club).errors = ["Hero image: " ++ e]) := by
  refine ⟨by simp [processClubs], fun i => by simp [processClubs], ?_⟩
  intro club hu lu e ud hh hl hg hoe hol
  simp only [processClub, hh, hl, hg, processImageToCloudinary, hoe, hol,
    List.take_nil, galleryLoop]
  simp

/-- A transform oracle that fails exactly on the hero URL `a:h`. -/
def oracle2 : String → String → Nat → Except String UploadOk :=
  fun url _ _ => if url = "a:h" then .error "boom" else .ok ⟨"a:c", "p", 1, 1⟩

/-- A club with a failing hero URL, a succeeding logo URL and no gallery. -/
def club2 : Club :=
  { name := "unknown-club", originalName := "X", heroImage := some "a:h"
    logoImage := some "a:l", galleryImages := [], submissionId := "s"
    email := "", rawData := [] }

/-- Witness for C2 at `club2` under `oracle2`. -/
theorem c2_witness :
    (processClub oracle2 club2).processed.map (fun a => a.type) = ["logo"]
  ∧ (processClub oracle2 club2).errors = ["Hero image: " ++ "boom"] :=
  (c2_orchestrator_isolation oracle2 [club2]).2.2 club2 "a:h" "a:l" "boom"
    ⟨"a:c", "p", 1, 1⟩ rfl rfl rfl rfl rfl

/-- Helper for C3: the name loop issues its candidate queries in order —
the resulting trace extends the incoming trace by a prefix of the
candidate list (it may stop early at a hit). -/
theorem nameLoop_trace (oracle : Query → SearchResp) (ns : List String)
    (trace : List Query) (resp data : Option SearchResp) :
    ∃ k, (nameLoop oracle ns trace resp data).1 =
      trace ++ ((ns.map Query.byName).take k) := by
  induction ns generalizing trace resp data with
  | nil => exact ⟨0, by simp [nameLoop]⟩
  | cons n rest ih =>
    simp only [nameLoop]
    split
    · split
      · obtain ⟨k, hk⟩ := ih (trace ++ [Query.byName n]) (some (oracle (Query.byName n)))
          (some (oracle (Query.byName n)))
        refine ⟨k + 1, ?_⟩
        rw [hk]
        simp [List.take_succ_cons]
      · exact ⟨1, by simp⟩
    · obtain ⟨k, hk⟩ := ih (trace ++ [Query.byName n]) (some (oracle (Query.byName n))) data
      refine ⟨k + 1, ?_⟩
      rw [hk]
      simp [List.take_succ_cons]

/-- Helper for C3: if every already-issued query missed, then every
non-final query of the name loop trace missed (the loop breaks at the
first hit, so only the last query can be a hit). -/
theorem nameLoop_dropLast_miss (oracle : Query → SearchResp) (ns : List String)
    (trace : List Query) (resp data : Option SearchResp)
    (h : ∀ q ∈ trace, (oracle q).ok = false ∨ (oracle q).records = []) :
    ∀ q ∈ (nameLoop oracle ns trace resp data).1.dropLast,
      (oracle q).ok = false ∨ (oracle q).records = [] := by
  induction ns generalizing trace resp data with
  | nil =>
    intro q hq
    exact h q (List.dropLast_subset _ hq)
  | cons n rest ih =>
    simp only [nameLoop]
    split
    · split
      case isTrue hok hemp =>
        apply ih
        intro q hq
        rcases List.mem_append.1 hq with h1 | h1
        · exact h q h1
        · simp only [List.mem_singleton] at h1
          subst h1
          exact Or.inr (List.isEmpty_iff.1 hemp)
      case isFalse =>
        intro q hq
        rw [List.dropLast_concat] at hq
        exact h q hq
    case isFalse hok =>
      apply ih
      intro q hq
      rcases List.mem_append.1 hq with h1 | h1
      · exact h q h1
      · simp only [List.mem_singleton] at h1
        subst h1
        exact Or.inl (Bool.not_eq_true _ ▸ hok)

/-- Helper for C3: in the full search phase, every query except possibly
the last one returned no usable match — the chain stops at the first hit. -/
theorem searchPhase_dropLast_miss (oracle : Query → SearchResp) (r : ClubResult) :
    ∀ q ∈ (searchTrace oracle r).dropLast,
      (oracle q).ok = false ∨ (oracle q).records = [] := by
  unfold searchTrace searchPhase
  by_cases hid : (r.submissionId != "" && jsTrim r.submissionId != "") = true
  · rw [if_pos hid]
    dsimp only
    by_cases hd : (!hasData (if (oracle (Query.bySubmissionId r.submissionId)).ok = true
        then some (oracle (Query.bySubmissionId r.submissionId)) else none)) = true
    · rw [if_pos hd]
      by_cases hn : (r.name != "" && jsTrim r.name != "") = true
      · rw [if_pos hn]
        apply nameLoop_dropLast_miss
        intro q hq
        simp only [List.mem_singleton] at hq
        subst hq
        by_cases hok : (oracle (Query.bySubmissionId r.submissionId)).ok = true
        · rw [if_pos hok] at hd
          simp only [hasData, Bool.not_eq_true', Bool.not_eq_false'] at hd
          exact Or.inr (List.isEmpty_iff.1 hd)
        · exact Or.inl (Bool.not_eq_true _ ▸ hok)
      · rw [if_neg hn]
        intro q hq
        simp at hq
    · rw [if_neg hd]
      intro q hq
      simp at hq
  · rw [if_neg hid]
    dsimp only
    rw [if_pos (by rfl : (!hasData (none : Option SearchResp)) = true)]
    by_cases hn : (r.name != "" && jsTrim r.name != "") = true
    · rw [if_pos hn]
      apply nameLoop_dropLast_miss
      intro q hq
      simp at hq
    · rw [if_neg hn]
      intro q hq
      simp at hq

/-- C3: for a result with blank submission id the reconciler never issues
the Submission ID query and its trace is a prefix of the display-name
query followed by the slug (cleaned-name) query, so the display-name
search comes before any slug search; and in general the fallback chain
stops at the first query returning a match (every non-final issued query
was a miss). -/
theorem c3_search_fallback_order (oracle : Query → SearchResp) (r : ClubResult)
    (h : jsTrim r.submissionId = "") :
    (∀ s, Query.bySubmissionId s ∉ searchTrace oracle r)
  ∧ (∃ k, searchTrace oracle r =
      [Query.byName r.name, Query.byName r.cleanName].take k)
  ∧ (∀ (r2 : ClubResult) (q : Query), q ∈ (searchTrace oracle r2).dropLast →
      (oracle q).ok = false ∨ (oracle q).records = []) := by
  have hguard : (r.submissionId != "" && jsTrim r.submissionId != "") = false := by
    rw [h]
    simp
  have htake : ∃ k, searchTrace oracle r =
      [Query.byName r.name, Query.byName r.cleanName].take k := by
    unfold searchTrace searchPhase
    rw [if_neg (show ¬((r.submissionId != "" && jsTrim r.submissionId != "") = true) by
      simp [hguard])]
    dsimp only
    rw [if_pos (by rfl : (!hasData (none : Option SearchResp)) = true)]
    by_cases hname : (r.name != "" && jsTrim r.name != "") = true
    · rw [if_pos hname]
      obtain ⟨k, hk⟩ := nameLoop_trace oracle (nameCandidates r) [] none none
      rw [hk]
      unfold nameCandidates
      simp only [List.filter, hname]
      by_cases hclean : (r.cleanName != "" && jsTrim r.cleanName != "") = true
      · rw [hclean]
        exact ⟨k, by simp⟩
      · rw [Bool.not_eq_true] at hclean
        rw [hclean]
        rcases k with _ | k
        · exact ⟨0, by simp⟩
        · exact ⟨1, by simp [List.take_succ_cons]⟩
    · rw [if_neg hname]
      exact ⟨0, by simp⟩
  refine ⟨?_, htake, fun r2 => searchPhase_dropLast_miss oracle r2⟩
  intro s hs
  obtain ⟨k, hk⟩ := htake
  rw [hk] at hs
  have := List.take_subset _ _ hs
  simp at this

/-- A search oracle that answers every query ok with no records. -/
def oracle3 : Query → SearchResp := fun _ => { ok := true, records := [] }

/-- A result whose submission id is whitespace-only (blank). -/
def r3 : ClubResult :=
  { name := "X", cleanName := "x", submissionId := " ", email := ""
    processed := [], errors := [], cloudinaryUrls := [], airtableUpdate := none }

/-- Witness for C3 at `r3` (blank submission id) under `oracle3`. -/
theorem c3_witness :
    (∀ s, Query.bySubmissionId s ∉ searchTrace oracle3 r3)
  ∧ (∃ k, searchTrace oracle3 r3 =
      [Query.byName r3.name, Query.byName r3.cleanName].take k)
  ∧ (∀ (r2 : ClubResult) (q : Query), q ∈ (searchTrace oracle3 r2).dropLast →
      (oracle3 q).ok = false ∨ (oracle3 q).records = []) :=
  c3_search_fallback_order oracle3 r3 (by decide)

/-- Helper for C5: when every search response is ok with no records, the
name loop walks its whole candidate list and ends with that last empty
response as both `searchResponse` and `searchData`. -/
theorem nameLoop_all_empty (so : Query → SearchResp)
    (hok : ∀ q, (so q).ok = true) (hemp : ∀ q, (so q).records = []) :
    ∀ (ns : List String) (trace : List Query) (resp data : Option SearchResp),
      ns ≠ [] →
      ∃ res, (nameLoop so ns trace resp data).2 = (some res, some res)
        ∧ res.ok = true ∧ res.records = [] := by
  intro ns
  induction ns with
  | nil => exact fun _ _ _ h => absurd rfl h
  | cons n rest ih =>
    intro trace resp data _
    simp only [nameLoop]
    rw [if_pos (hok (Query.byName n))]
    rw [if_pos (show (so (Query.byName n)).records.isEmpty = true by
      rw [hemp (Query.byName n)]; rfl)]
    rcases rest with _ | ⟨m, more⟩
    · exact ⟨so (Query.byName n), by simp [nameLoop], hok _, hemp _⟩
    · exact ih _ _ _ (by simp)

/-- Helper for C5: if the truthiness-and-trim guard of the source is
false, the string is blank after trimming. -/
theorem guard_false_blank (x : String)
    (h : (x != "" && jsTrim x != "") = false) : jsTrim x = "" := by
  by_cases hx : x = ""
  · subst hx; rfl
  · have hbne : (x != "") = true := by simp [bne_iff_ne, hx]
    rw [hbne, Bool.true_and, bne_eq_false_iff_eq] at h
    exact h

/-- Helper for C5: a string that is non-blank after trimming passes the
truthiness-and-trim guard of the source. -/
theorem blank_guard_true (x : String) (h : jsTrim x ≠ "") :
    (x != "" && jsTrim x != "") = true := by
  have hx : x ≠ "" := by
    intro hx
    subst hx
    exact h rfl
  simp [bne_iff_ne, hx, h]

/-- C5 (amended): when at least one search key (submission id or display
name) is non-blank and every issued search query returns ok with zero
records, reconciliation fails with the NoMatch error; the caller records
any reconciliation error as a per-submission entry in `errors`, leaving
`processed` and the published URLs untouched; and the Airtable phase
returns one result per input result (it never aborts the loop).  When
both keys are blank the failure is a TypeError instead — see
`c5_counterexample`. -/
theorem c5_amended_no_match :
    (∀ (so : Query → SearchResp) (uo : UpdateRequest → Bool) (now : String)
        (r : ClubResult),
      (jsTrim r.submissionId ≠ "" ∨ jsTrim r.name ≠ "") →
      (∀ q, (so q).ok = true) → (∀ q, (so q).records = []) →
      updateAirtableRecordM so uo now r = .error (.noMatch r.submissionId r.name))
  ∧ (∀ (recon : ClubResult → Except AirtableErr AirtableUpdate) (r : ClubResult)
        (e : AirtableErr),
      recon r = .error e → r.processed ≠ [] →
      airtableStep recon r =
        { r with errors := r.errors ++ ["Airtable update failed: " ++ errMessage e] })
  ∧ (∀ (recon : ClubResult → Except AirtableErr AirtableUpdate)
        (results : List ClubResult),
      (applyAirtablePhase recon results).length = results.length) := by
  refine ⟨?_, ?_, ?_⟩
  · intro so uo now r hkey hok hemp
    have hphase : ∃ res, (searchPhase so r).2 = (some res, some res)
        ∧ res.ok = true ∧ res.records = [] := by
      unfold searchPhase
      by_cases hid : (r.submissionId != "" && jsTrim r.submissionId != "") = true
      · rw [if_pos hid]
        dsimp only
        rw [if_pos (hok (Query.bySubmissionId r.submissionId))]
        rw [if_pos (show (!hasData (some (so (Query.bySubmissionId r.submissionId)))) = true by
          simp [hasData, hemp (Query.bySubmissionId r.submissionId)])]
        by_cases hn : (r.name != "" && jsTrim r.name != "") = true
        · rw [if_pos hn]
          apply nameLoop_all_empty so hok hemp
          unfold nameCandidates
          simp only [List.filter, hn]
          exact List.cons_ne_nil _ _
        · rw [if_neg hn]
          exact ⟨so (Query.bySubmissionId r.submissionId), rfl, hok _, hemp _⟩
      · rw [if_neg hid]
        dsimp only
        rw [if_pos (show (!hasData (none : Option SearchResp)) = true from rfl)]
        have hblank : jsTrim r.submissionId = "" :=
          guard_false_blank _ (Bool.not_eq_true _ ▸ hid)
        have hname : jsTrim r.name ≠ "" := by
          rcases hkey with hkey | hkey
          · exact absurd hblank hkey
          · exact hkey
        rw [if_pos (blank_guard_true _ hname)]
        apply nameLoop_all_empty so hok hemp
        unfold nameCandidates
        simp only [List.filter, blank_guard_true _ hname]
        exact List.cons_ne_nil _ _
    obtain ⟨res, h2, hro, hrr⟩ := hphase
    unfold updateAirtableRecordM searchOutcome
    have h21 : (searchPhase so r).2.1 = some res := by rw [h2]
    have h22 : (searchPhase so r).2.2 = some res := by rw [h2]
    rw [h21, h22]
    simp [hro, hrr]
  · intro recon r e hrec hproc
    unfold airtableStep
    rw [if_pos (show r.processed.length > 0 from List.length_pos.mpr hproc)]
    rw [hrec]
  · intro recon results
    simp [applyAirtablePhase]

/-- A search oracle that answers every query ok with no records. -/
def oracleC5 : Query → SearchResp := fun _ => { ok := true, records := [] }

/-- A result with a non-blank submission id and display name. -/
def rC5 : ClubResult :=
  { name := "X", cleanName := "x", submissionId := "s", email := ""
    processed := [], errors := [], cloudinaryUrls := [], airtableUpdate := none }

/-- Witness for C5 (amended) at `rC5` under `oracleC5`. -/
theorem c5_witness :
    updateAirtableRecordM oracleC5 (fun _ => true) "t" rC5 =
      .error (.noMatch "s" "X") :=
  c5_amended_no_match.1 oracleC5 (fun _ => true) "t" rC5
    (Or.inl (by decide)) (fun _ => rfl) (fun _ => rfl)

/-- A slot type occurs among the successfully processed assets. -/
def hasSlot (processed : List Asset) (t : String) : Bool :=
  processed.any (fun a => a.type == t)

/-- The four gallery slot types. -/
def isGallerySlot (t : String) : Bool :=
  t == "gallery-1" || t == "gallery-2" || t == "gallery-3" || t == "gallery-4"

/-- The per-slot field keys the update loop writes for one asset type:
hero and logo write URL and alt text, gallery slots write only their alt
text (their URL goes into the aggregate field), other types write
nothing. -/
def slotKeys (t : String) : List String :=
  if t == "hero" then ["Hero URL", "Hero Alt Text"]
  else if t == "logo" then ["Logo URL", "Logo Alt Text"]
  else if t == "gallery-1" then ["Gallery 1 Alt Text"]
  else if t == "gallery-2" then ["Gallery 2 Alt Text"]
  else if t == "gallery-3" then ["Gallery 3 Alt Text"]
  else if t == "gallery-4" then ["Gallery 4 Alt Text"]
  else []

/-- Helper for C4: object assignment adds exactly its own key. -/
theorem keys_setField (m : List (String × FieldVal)) (k : String) (v : FieldVal)
    (x : String) : x ∈ keysOf (setField m k v) ↔ x = k ∨ x ∈ keysOf m := by
  unfold setField
  split
  case isTrue hany =>
    have hk : k ∈ keysOf m := by
      rcases List.any_eq_true.1 hany with ⟨p, hp, hpk⟩
      rw [beq_iff_eq] at hpk
      exact hpk ▸ List.mem_map_of_mem Prod.fst hp
    have hkeys : keysOf (m.map fun p => if p.1 == k then (k, v) else p) = keysOf m := by
      unfold keysOf
      rw [List.map_map]
      apply List.map_congr_left
      intro p _
      by_cases hp : (p.1 == k) = true
      · rw [beq_iff_eq] at hp
        simp [Function.comp, hp]
      · simp [Function.comp, hp]
    rw [hkeys]
    constructor
    · exact Or.inr
    · rintro (rfl | hx)
      · exact hk
      · exact hx
  case isFalse =>
    unfold keysOf
    rw [List.map_append]
    simp [or_comm]

/-- Helper for C4: one switch step adds exactly the keys of its slot. -/
theorem keys_applySlot (st : List (String × FieldVal) × GalleryAcc) (p : Asset)
    (x : String) :
    x ∈ keysOf (applySlot st p).1 ↔ x ∈ slotKeys p.type ∨ x ∈ keysOf st.1 := by
  obtain ⟨m, g⟩ := st
  unfold applySlot slotKeys
  split_ifs <;> simp [keys_setField] <;> tauto

/-- Helper for C4: the slot loop produces exactly the keys of the slots
present in the processed list (plus whatever was already there). -/
theorem keys_foldl (ps : List Asset) (st : List (String × FieldVal) × GalleryAcc)
    (x : String) :
    x ∈ keysOf (ps.foldl applySlot st).1 ↔
      (∃ p ∈ ps, x ∈ slotKeys p.type) ∨ x ∈ keysOf st.1 := by
  induction ps generalizing st with
  | nil => simp
  | cons p ps ih =>
    rw [List.foldl_cons, ih, keys_applySlot]
    constructor
    · rintro (⟨a, ha, hx⟩ | hx | hx)
      · exact Or.inl ⟨a, List.mem_cons_of_mem _ ha, hx⟩
      · exact Or.inl ⟨p, List.mem_cons_self .., hx⟩
      · exact Or.inr hx
    · rintro (⟨a, ha, hx⟩ | hx)
      · rcases List.mem_cons.1 ha with rfl | ha
        · exact Or.inr (Or.inl hx)
        · exact Or.inl ⟨a, ha, hx⟩
      · exact Or.inr (Or.inr hx)

/-- Helper for C4: one switch step marks the gallery array exactly when
the asset is a gallery slot. -/
theorem anySet_applySlot (st : List (String × FieldVal) × GalleryAcc) (p : Asset) :
    ((applySlot st p).2).anySet = (st.2.anySet || isGallerySlot p.type) := by
  obtain ⟨m, g⟩ := st
  unfold applySlot isGallerySlot
  split_ifs with h1 h2 h3 h4 h5 h6 <;> simp_all [GalleryAcc.anySet]

/-- Helper for C4: after the slot loop the gallery array is non-empty
exactly when some processed asset is a gallery slot. -/
theorem anySet_foldl (ps : List Asset) (st : List (String × FieldVal) × GalleryAcc) :
    ((ps.foldl applySlot st).2).anySet =
      (st.2.anySet || ps.any (fun p => isGallerySlot p.type)) := by
  induction ps generalizing st with
  | nil => simp
  | cons p ps ih =>
    rw [List.foldl_cons, ih, anySet_applySlot]
    simp [Bool.or_assoc]

/-- Helper for C4: the keys of the main-server update map are the three
unconditional markers, the aggregate gallery key when a gallery slot was
processed, and the per-slot keys of the processed slots. -/
theorem keys_buildUpdateFields (now : String) (ps : List Asset) (x : String) :
    x ∈ keysOf (buildUpdateFields now ps) ↔
      x = "Status" ∨ x = "Last Modified" ∨ x = "Processed"
    ∨ (x = "Gallery URLs (JSON)" ∧ ps.any (fun p => isGallerySlot p.type) = true)
    ∨ (∃ p ∈ ps, x ∈ slotKeys p.type) := by
  unfold buildUpdateFields
  dsimp only
  rw [keys_setField, keys_setField, keys_setField]
  by_cases hg : ((ps.foldl applySlot ([], GalleryAcc.empty)).2).anySet = true
  · rw [if_pos hg, keys_setField, keys_foldl]
    rw [anySet_foldl] at hg
    simp only [GalleryAcc.empty, GalleryAcc.anySet, Option.isSome_none,
      Bool.or_self, Bool.false_or] at hg
    simp [hg, keysOf]
    try tauto
  · rw [if_neg hg, keys_foldl]
    rw [anySet_foldl] at hg
    simp only [GalleryAcc.empty, GalleryAcc.anySet, Option.isSome_none,
      Bool.or_self, Bool.false_or] at hg
    rw [Bool.not_eq_true] at hg
    simp [hg, keysOf]
    try tauto

/-- Helper for C4: the webhook-variant update map has the same keys
minus the marker fields, with the attachment-style aggregate key. -/
theorem keys_buildUpdateFieldsB (ps : List Asset) (x : String) :
    x ∈ keysOf (buildUpdateFieldsB ps) ↔
      (x = "Photo Gallery Url" ∧ ps.any (fun p => isGallerySlot p.type) = true)
    ∨ (∃ p ∈ ps, x ∈ slotKeys p.type) := by
  unfold buildUpdateFieldsB
  dsimp only
  by_cases hg : ((ps.foldl applySlot ([], GalleryAcc.empty)).2).anySet = true
  · rw [if_pos hg, keys_setField, keys_foldl]
    rw [anySet_foldl] at hg
    simp only [GalleryAcc.empty, GalleryAcc.anySet, Option.isSome_none,
      Bool.or_self, Bool.false_or] at hg
    simp [hg, keysOf]
    try tauto
  · rw [if_neg hg, keys_foldl]
    rw [anySet_foldl] at hg
    simp only [GalleryAcc.empty, GalleryAcc.anySet, Option.isSome_none,
      Bool.or_self, Bool.false_or] at hg
    rw [Bool.not_eq_true] at hg
    simp [hg, keysOf]
    try tauto

/-- Helper for C4: a key comes from some processed slot exactly when it
is one of the named per-slot fields of a slot present in the list. -/
theorem slotKeys_mem_iff (ps : List Asset) (x : String) :
    (∃ p ∈ ps, x ∈ slotKeys p.type) ↔
      ((x = "Hero URL" ∨ x = "Hero Alt Text") ∧ hasSlot ps "hero" = true)
    ∨ ((x = "Logo URL" ∨ x = "Logo Alt Text") ∧ hasSlot ps "logo" = true)
    ∨ (x = "Gallery 1 Alt Text" ∧ hasSlot ps "gallery-1" = true)
    ∨ (x = "Gallery 2 Alt Text" ∧ hasSlot ps "gallery-2" = true)
    ∨ (x = "Gallery 3 Alt Text" ∧ hasSlot ps "gallery-3" = true)
    ∨ (x = "Gallery 4 Alt Text" ∧ hasSlot ps "gallery-4" = true) := by
  constructor
  · rintro ⟨p, hp, hx⟩
    have hhas : ∀ t, p.type = t → hasSlot ps t = true := fun t ht =>
      List.any_eq_true.2 ⟨p, hp, by rw [beq_iff_eq]; exact ht⟩
    unfold slotKeys at hx
    split_ifs at hx with h1 h2 h3 h4 h5 h6
    · rw [beq_iff_eq] at h1
      simp only [List.mem_cons, List.not_mem_nil, or_false] at hx
      exact Or.inl ⟨hx, hhas _ h1⟩
    · rw [beq_iff_eq] at h2
      simp only [List.mem_cons, List.not_mem_nil, or_false] at hx
      exact Or.inr (Or.inl ⟨hx, hhas _ h2⟩)
    · rw [beq_iff_eq] at h3
      simp only [List.mem_cons, List.not_mem_nil, or_false] at hx
      exact Or.inr (Or.inr (Or.inl ⟨hx, hhas _ h3⟩))
    · rw [beq_iff_eq] at h4
      simp only [List.mem_cons, List.not_mem_nil, or_false] at hx
      exact Or.inr (Or.inr (Or.inr (Or.inl ⟨hx, hhas _ h4⟩)))
    · rw [beq_iff_eq] at h5
      simp only [List.mem_cons, List.not_mem_nil, or_false] at hx
      exact Or.inr (Or.inr (Or.inr (Or.inr (Or.inl ⟨hx, hhas _ h5⟩))))
    · rw [beq_iff_eq] at h6
      simp only [List.mem_cons, List.not_mem_nil, or_false] at hx
      exact Or.inr (Or.inr (Or.inr (Or.inr (Or.inr ⟨hx, hhas _ h6⟩))))
    · simp at hx
  · have grab : ∀ (t : String), hasSlot ps t = true →
        ∀ y, y ∈ slotKeys t → ∃ p ∈ ps, y ∈ slotKeys p.type := by
      intro t ht y hy
      rcases List.any_eq_true.1 ht with ⟨p, hp, hpt⟩
      rw [beq_iff_eq] at hpt
      exact ⟨p, hp, hpt ▸ hy⟩
    rintro (⟨hx, hh⟩ | ⟨hx, hh⟩ | ⟨hx, hh⟩ | ⟨hx, hh⟩ | ⟨hx, hh⟩ | ⟨hx, hh⟩)
    · refine grab "hero" hh x ?_
      rcases hx with rfl | rfl <;> simp [slotKeys]
    · refine grab "logo" hh x ?_
      rcases hx with rfl | rfl <;> simp [slotKeys]
    · subst hx; exact grab "gallery-1" hh _ (by simp [slotKeys])
    · subst hx; exact grab "gallery-2" hh _ (by simp [slotKeys])
    · subst hx; exact grab "gallery-3" hh _ (by simp [slotKeys])
    · subst hx; exact grab "gallery-4" hh _ (by simp [slotKeys])

/-- Helper for C4: some processed asset is a gallery slot exactly when
one of the four gallery slots is present. -/
theorem any_gallery_iff (ps : List Asset) :
    (ps.any (fun p => isGallerySlot p.type) = true) ↔
      (hasSlot ps "gallery-1" = true ∨ hasSlot ps "gallery-2" = true ∨
       hasSlot ps "gallery-3" = true ∨ hasSlot ps "gallery-4" = true) := by
  simp only [hasSlot, isGallerySlot, List.any_eq_true, Bool.or_eq_true, beq_iff_eq]
  constructor
  · rintro ⟨p, hp, ((h | h) | h) | h⟩
    · exact Or.inl ⟨p, hp, h⟩
    · exact Or.inr (Or.inl ⟨p, hp, h⟩)
    · exact Or.inr (Or.inr (Or.inl ⟨p, hp, h⟩))
    · exact Or.inr (Or.inr (Or.inr ⟨p, hp, h⟩))
  · rintro (⟨p, hp, h⟩ | ⟨p, hp, h⟩ | ⟨p, hp, h⟩ | ⟨p, hp, h⟩)
    · exact ⟨p, hp, Or.inl (Or.inl (Or.inl h))⟩
    · exact ⟨p, hp, Or.inl (Or.inl (Or.inr h))⟩
    · exact ⟨p, hp, Or.inl (Or.inr h)⟩
    · exact ⟨p, hp, Or.inr h⟩

/-- C4 (amended): in the main server, the update map holds URL/alt-text
keys only for slots present among the successful assets (an errored slot
contributes no key), gallery slots additionally feed the one aggregate
`Gallery URLs (JSON)` field, and the `Status`/`Last Modified`/`Processed`
markers are present unconditionally; the webhook variant is identical
except that its aggregate is `Photo Gallery Url` and it writes no marker
fields (see `c4_counterexample`); and the request sent is a PATCH whose
body is exactly the built map, so fields outside it are not written. -/
theorem c4_amended_update_fields (now : String) (ps : List Asset) (x : String) :
    (x ∈ keysOf (buildUpdateFields now ps) ↔
       x = "Status" ∨ x = "Last Modified" ∨ x = "Processed"
     ∨ (x = "Gallery URLs (JSON)" ∧
         (hasSlot ps "gallery-1" = true ∨ hasSlot ps "gallery-2" = true ∨
          hasSlot ps "gallery-3" = true ∨ hasSlot ps "gallery-4" = true))
     ∨ ((x = "Hero URL" ∨ x = "Hero Alt Text") ∧ hasSlot ps "hero" = true)
     ∨ ((x = "Logo URL" ∨ x = "Logo Alt Text") ∧ hasSlot ps "logo" = true)
     ∨ (x = "Gallery 1 Alt Text" ∧ hasSlot ps "gallery-1" = true)
     ∨ (x = "Gallery 2 Alt Text" ∧ hasSlot ps "gallery-2" = true)
     ∨ (x = "Gallery 3 Alt Text" ∧ hasSlot ps "gallery-3" = true)
     ∨ (x = "Gallery 4 Alt Text" ∧ hasSlot ps "gallery-4" = true))
  ∧ (x ∈ keysOf (buildUpdateFieldsB ps) ↔
       (x = "Photo Gallery Url" ∧
         (hasSlot ps "gallery-1" = true ∨ hasSlot ps "gallery-2" = true ∨
          hasSlot ps "gallery-3" = true ∨ hasSlot ps "gallery-4" = true))
     ∨ ((x = "Hero URL" ∨ x = "Hero Alt Text") ∧ hasSlot ps "hero" = true)
     ∨ ((x = "Logo URL" ∨ x = "Logo Alt Text") ∧ hasSlot ps "logo" = true)
     ∨ (x = "Gallery 1 Alt Text" ∧ hasSlot ps "gallery-1" = true)
     ∨ (x = "Gallery 2 Alt Text" ∧ hasSlot ps "gallery-2" = true)
     ∨ (x = "Gallery 3 Alt Text" ∧ hasSlot ps "gallery-3" = true)
     ∨ (x = "Gallery 4 Alt Text" ∧ hasSlot ps "gallery-4" = true))
  ∧ (∀ (recordId : String) (fields : List (String × FieldVal)),
       (mkUpdateRequest recordId fields).httpMethod = "PATCH"
     ∧ (mkUpdateRequest recordId fields).fields = fields) := by
  refine ⟨?_, ?_, fun recordId fields => ⟨rfl, rfl⟩⟩
  · rw [keys_buildUpdateFields, slotKeys_mem_iff, any_gallery_iff]
  · rw [keys_buildUpdateFieldsB, slotKeys_mem_iff, any_gallery_iff]
